import Mathlib

/-!
Shallow embedding of the react-blog-app repository (a Supabase-backed
blogging client).  Pure Lean models are translated from the TypeScript
source files:

  * `src/lib/storage.ts`              : `fetchBlogs` (offset pagination)
  * `src/pages/BlogList.tsx`          : `ITEMS_PER_PAGE`, `fetchTotalCount`
  * `src/components/Comments.tsx`     : `fetchComments`, `handleSubmit`,
                                        `handleDelete`
  * `src/pages/CreateBlog.tsx`        : `handleSubmit`
  * `src/pages/EditBlog.tsx`          : `fetchBlog`, `handleSubmit`,
                                        `handleDelete`
  * `src/components/CommentFileUpload.tsx` : `onDrop`
  * `src/components/ImageUpload.tsx`       : `onDrop`

Remote behaviour (Supabase query results, insert outcomes, storage
outcomes) is passed in explicitly as oracle arguments of type
`Except String _` / `Option _`, and timestamps are modelled as natural
numbers.  Effects issued by a handler (remote calls, alerts, navigation)
are recorded in explicit result structures or traces so that ordering
properties can be stated.
-/

namespace BlogApp

/-- An authenticated user as held in the redux auth slice; a missing email
is modelled as the empty string (falsy in the JS checks). -/
structure AuthUser where
  id : String
  email : String
deriving DecidableEq, Repr

/-- A row of the `blogs` table (see `BlogData` in `EditBlog.tsx` and the
`Blog` interface in `BlogList.tsx`); `created_at` is a timestamp modelled
as a natural number. -/
structure BlogRow where
  id : String
  title : String
  content : String
  author_id : String
  author_email : String
  image_url : String
  image_path : String
  created_at : Nat
deriving DecidableEq, Repr

/-- A row of the `comments` table (see the `Comment` type used in
`Comments.tsx`). -/
structure CommentRow where
  id : String
  blog_id : String
  author_id : String
  author_email : String
  content : String
  created_at : Nat
deriving DecidableEq, Repr

/-- A row of the `comment_attachments` table (`FileAttachment` in
`lib/types.ts`), as inserted by `Comments.tsx` `handleSubmit`. -/
structure AttachmentRow where
  comment_id : String
  file_url : String
  file_name : String
  file_type : String
  file_size : Nat
deriving DecidableEq, Repr

/-- Metadata of a browser `File` object (name, byte size, MIME type). -/
structure FileMeta where
  name : String
  size : Nat
  mime : String
deriving DecidableEq, Repr

/-- An `UploadedFile` as staged by `CommentFileUpload.tsx`: the public
url, the storage path and the original file metadata. -/
structure UploadedFile where
  url : String
  path : String
  file : FileMeta
deriving DecidableEq, Repr

/-! ## Ordering: `order("created_at", { ascending: false })`

The remote store returns rows ordered by creation time descending.  We
model the `ORDER BY created_at DESC` clause as a stable insertion sort
with the relation `fun a b => key b ≤ key a`. -/

/-- Model of `ORDER BY key DESC` on a list of rows. -/
def orderByDesc (key : α → Nat) (l : List α) : List α :=
  l.insertionSort (fun a b => key b ≤ key a)

theorem sorted_orderByDesc (key : α → Nat) (l : List α) :
    (orderByDesc key l).Sorted (fun a b => key b ≤ key a) := by
  haveI : IsTotal α (fun a b => key b ≤ key a) :=
    ⟨fun a b => (le_total (key b) (key a))⟩
  haveI : IsTrans α (fun a b => key b ≤ key a) :=
    ⟨fun _ _ _ h1 h2 => le_trans h2 h1⟩
  exact List.sorted_insertionSort _ l

theorem length_orderByDesc (key : α → Nat) (l : List α) :
    (orderByDesc key l).length = l.length :=
  (List.perm_insertionSort _ l).length_eq

/-! ## List fetcher (`fetchBlogs` in `src/lib/storage.ts` and
`BlogList.fetchBlogs` in `src/pages/BlogList.tsx`) -/

/-- Supabase `.range(frm, toIdx)`: the rows at zero-based indices
`frm .. toIdx` inclusive of the ordered result set. -/
def rangeWindow (l : List α) (frm toIdx : Nat) : List α :=
  (l.drop frm).take (toIdx - frm + 1)

/-- Model of `fetchBlogs(page, limit)` from `src/lib/storage.ts`:
`from = (page-1)*limit`, `to = from + limit - 1`, rows ordered by
`created_at` descending, windowed with `.range(from, to)`.
`BlogList.fetchBlogs` computes the identical window with
`limit = ITEMS_PER_PAGE`. -/
def fetchBlogs (page limit : Nat) (db : List BlogRow) : List BlogRow :=
  let frm := (page - 1) * limit
  let toIdx := frm + limit - 1
  rangeWindow (orderByDesc BlogRow.created_at db) frm toIdx

/-! ## Total count and page count (`BlogList.fetchTotalCount`) -/

/-- Constant `ITEMS_PER_PAGE` in `src/pages/BlogList.tsx`. -/
def ITEMS_PER_PAGE : Nat := 6

/-- Value `Math.ceil(count / ITEMS_PER_PAGE)` as computed by
`fetchTotalCount` in `src/pages/BlogList.tsx` (the exact real ceiling of
the division, taken over ℚ). -/
def totalPagesOf (count : Nat) : Nat :=
  ⌈(count : ℚ) / (ITEMS_PER_PAGE : ℚ)⌉₊

/-! ## Attachment joiner (`fetchComments` in `src/components/Comments.tsx`)

For each fetched comment the component issues one secondary query
`from("comment_attachments").select("*").eq("comment_id", comment.id)`
and merges `attachmentsData || []` onto the comment.  The destructuring
`const { data: attachmentsData } = await ...` discards the error field,
so a failed secondary query (data = null) is indistinguishable from zero
rows: both give `[]`.  We model the remote response for a given comment
id as `lookup : String → Option (List AttachmentRow)` where `none` is a
failed query (null data) and `some rows` a successful one. -/

/-- A comment with its merged attachment list (`{ ...comment,
attachments }` in `fetchComments`). -/
structure JoinedComment where
  row : CommentRow
  attachments : List AttachmentRow
deriving DecidableEq, Repr

/-- The per-comment secondary lookup and merge from `fetchComments`:
one lookup keyed by `comment.id`, result defaulted to `[]`
(`attachmentsData || []`). -/
def joinAttachments (lookup : String → Option (List AttachmentRow))
    (comments : List CommentRow) : List JoinedComment :=
  comments.map (fun c => ⟨c, (lookup c.id).getD []⟩)

/-- The remote state a single `fetchComments` call reads: the rows of
the `comments` table and the per-comment attachment query responses. -/
structure FetchSnapshot where
  commentsDb : List CommentRow
  lookup : String → Option (List AttachmentRow)

/-- The pure result of one full `fetchComments(blogId)` run against a
snapshot: filter `blog_id = blogId`, order by `created_at` descending,
then join attachments per comment. -/
def fetchCommentsPure (blogId : String) (s : FetchSnapshot) :
    List JoinedComment :=
  joinAttachments s.lookup
    (orderByDesc CommentRow.created_at
      (s.commentsDb.filter (fun c => c.blog_id = blogId)))

/-! ## Change listener (`useEffect` subscription in `Comments.tsx`)

Every `postgres_changes` event on `comments` rows with
`blog_id=eq.{blogId}` invokes `fetchComments()` afresh; fetches are not
serialized, and each completing fetch overwrites the displayed state via
`setComments`.  We model a run by the list of snapshots read by the
fetches **in completion order**; the displayed state after the run is
whatever the last-completing fetch produced. -/

/-- One `fetchComments` call is triggered per change notification (the
subscription handler body is exactly `fetchComments()`). -/
def refetchCount (events : List Unit) : Nat :=
  (events.map (fun _ => ())).length

/-- The displayed comment list after a sequence of fetch completions:
each completion executes `setComments` with its own full result, so the
final state is the last completion's result (or the initial state when
no fetch completed). -/
def finalDisplayed (blogId : String) (init : List JoinedComment)
    (completions : List FetchSnapshot) : List JoinedComment :=
  completions.foldl (fun _ s => fetchCommentsPure blogId s) init

/-! ## JS string primitives

The handlers use `String.prototype.trim`, `startsWith`, `includes` and
`split`.  We model them by structural recursion over the character
list of the string (so that concrete witnesses evaluate by kernel
reduction), with JS whitespace approximated by `Char.isWhitespace`. -/

/-- Remove leading whitespace characters. -/
def trimLeftChars : List Char → List Char
  | [] => []
  | c :: cs => if c.isWhitespace then trimLeftChars cs else c :: cs

/-- JS `String.prototype.trim`: strip whitespace from both ends. -/
def jsTrim (s : String) : String :=
  ⟨(trimLeftChars (trimLeftChars s.data).reverse).reverse⟩

/-- Whether `p` is a leading segment of `l` (character lists). -/
def leadsChars : List Char → List Char → Bool
  | [], _ => true
  | _ :: _, [] => false
  | p :: ps, c :: cs => p == c && leadsChars ps cs

/-- JS `String.prototype.startsWith`. -/
def jsStartsWith (s pre : String) : Bool :=
  leadsChars pre.data s.data

/-- Split a character list on every occurrence of `sep`, with explicit
fuel (one unit per consumed character) so the recursion is structural. -/
def splitOnCharsFuel (sep : List Char) :
    Nat → List Char → List Char → List (List Char)
  | 0, acc, l => [acc.reverse ++ l]
  | Nat.succ n, acc, l =>
    match l with
    | [] => [acc.reverse]
    | c :: cs =>
      if leadsChars sep (c :: cs) then
        acc.reverse :: splitOnCharsFuel sep n [] (List.drop sep.length (c :: cs))
      else
        splitOnCharsFuel sep n (c :: acc) cs

/-- JS `String.prototype.split(sep)` for a non-empty separator. -/
def jsSplitOn (s sep : String) : List String :=
  (splitOnCharsFuel sep.data (s.data.length + 1) [] s.data).map
    (fun cs => ⟨cs⟩)

/-- JS `String.prototype.includes(pat)`: a non-empty pattern occurs in
`s` iff splitting `s` on it yields more than one chunk. -/
def jsIncludes (s pat : String) : Bool :=
  (jsSplitOn s pat).length > 1

/-! ## Comment submit (`handleSubmit` in `src/components/Comments.tsx`)

`if (!user || !content.trim()) return;` then: insert the comment row;
on success, if files were staged, insert the attachment rows in a second
write; only when every issued write succeeded are the textarea content
and the staged file list reset.  Any thrown error sets the error message
and skips the resets.  The remote outcomes are oracles:
`commentRes` is the id Supabase assigns on success (or an error
message), `attachRes` the attachment-insert outcome. -/

structure CommentSubmitResult where
  /-- whether the comment insert was issued -/
  commentInsertIssued : Bool
  /-- the comment row appended to the `comments` table, when the insert
  was issued and succeeded -/
  insertedComment : Option CommentRow
  /-- whether the attachment insert was issued -/
  attachmentInsertIssued : Bool
  /-- the rows passed to the attachment insert -/
  attachmentRowsSent : List AttachmentRow
  /-- the rows appended to the `comment_attachments` table -/
  attachmentRowsStored : List AttachmentRow
  /-- the `error` state after the handler (`none` = no error surfaced) -/
  errorMsg : Option String
  /-- the `content` state after the handler -/
  contentAfter : String
  /-- the `uploadedFiles` state after the handler -/
  filesAfter : List UploadedFile
deriving Repr

/-- Message `err.message || "Failed to post comment"`. -/
def postErrMsg (e : String) : String :=
  if e = "" then "Failed to post comment" else e

def commentHandleSubmit (user : Option AuthUser) (blogId : String)
    (content : String) (files : List UploadedFile) (now : Nat)
    (commentRes : Except String String) (attachRes : Except String Unit) :
    CommentSubmitResult :=
  match user with
  | none =>
    ⟨false, none, false, [], [], none, content, files⟩
  | some u =>
    if jsTrim content = "" then
      ⟨false, none, false, [], [], none, content, files⟩
    else
      match commentRes with
      | .error e =>
        ⟨true, none, false, [], [], some (postErrMsg e), content, files⟩
      | .ok newId =>
        let c : CommentRow :=
          ⟨newId, blogId, u.id, u.email, jsTrim content, now⟩
        if files.length > 0 then
          let rows : List AttachmentRow := files.map (fun f =>
            ⟨newId, f.url, f.file.name, f.file.mime, f.file.size⟩)
          match attachRes with
          | .error e =>
            ⟨true, some c, true, rows, [], some (postErrMsg e),
              content, files⟩
          | .ok _ =>
            ⟨true, some c, true, rows, rows, none, "", []⟩
        else
          ⟨true, some c, false, [], [], none, "", []⟩

/-! ## Blog create (`handleSubmit` in `src/pages/CreateBlog.tsx`)

Validations in source order: user present, `title.trim()` non-empty,
`content.trim()` non-empty, `user.email` non-empty.  On a successful
insert the handler clears the title and content inputs, calls
`navigate("/")` — which only schedules the route change; it takes effect
after the handler returns — and then shows the blocking
`alert("Blog created successfully!")` synchronously inside the handler.
So in runtime order the alert is displayed before the navigation takes
effect. -/

structure CreateBlogResult where
  /-- whether the blog insert was issued -/
  insertIssued : Bool
  /-- the row sent to the blog insert, when it was issued -/
  insertPayload : Option BlogRow
  titleAfter : String
  contentAfter : String
  errorMsg : Option String
  /-- the alert message displayed synchronously during the handler -/
  alerted : Option String
  /-- the route change scheduled by `navigate`, applied after the
  handler returns -/
  pendingNav : Option String
deriving DecidableEq, Repr

def createBlogHandleSubmit (user : Option AuthUser)
    (title content imageUrl imagePath : String) (now : Nat)
    (insertRes : Except String Unit) : CreateBlogResult :=
  match user with
  | none =>
    ⟨false, none, title, content,
      some "You must be logged in to create a blog", none, none⟩
  | some u =>
    if jsTrim title = "" then
      ⟨false, none, title, content, some "Please enter a title", none, none⟩
    else if jsTrim content = "" then
      ⟨false, none, title, content,
        some "Please enter blog content", none, none⟩
    else if u.email = "" then
      ⟨false, none, title, content,
        some "User email not found. Please check your account.", none, none⟩
    else
      let payload : BlogRow :=
        ⟨"", jsTrim title, jsTrim content, u.id, u.email, imageUrl,
          imagePath, now⟩
      match insertRes with
      | .error e =>
        ⟨true, some payload, title, content,
          some (if e = "" then "Failed to create blog" else e), none, none⟩
      | .ok _ =>
        ⟨true, some payload, "", "", none,
          some "Blog created successfully!", some "/"⟩

/-- User-visible events of a create submit in runtime order: effects
inside the handler (the blocking alert) come first, the scheduled
navigation takes effect afterwards. -/
inductive UiEvent
  | alertShown (msg : String)
  | navigated (route : String)
deriving DecidableEq, Repr

def createRuntimeEvents (r : CreateBlogResult) : List UiEvent :=
  (match r.alerted with
   | some m => [UiEvent.alertShown m]
   | none => []) ++
  (match r.pendingNav with
   | some route => [UiEvent.navigated route]
   | none => [])

/-! ## Blog edit (`src/pages/EditBlog.tsx`)

`fetchBlog` loads the row and pre-checks ownership:
`if (data.author_id !== user?.id)` it sets the permission error,
schedules `navigate("/")` and returns **without** populating the form
fields.  `handleSubmit` validates title, content, user and email and
then issues the update — it performs no ownership comparison of its
own.  The form inputs remain editable (`onChange` setters), which we
model as explicit state transitions. -/

/-- The component state of `EditBlog` that the handlers read and write. -/
structure EditBlogState where
  title : String
  content : String
  imageUrl : String
  imagePath : String
  errorMsg : String
  successMsg : String
  /-- a scheduled `navigate` (via `setTimeout`), if any -/
  pendingNav : Option String
deriving DecidableEq, Repr

/-- The state of a freshly mounted `EditBlog` (all inputs empty). -/
def editInitialState : EditBlogState :=
  ⟨"", "", "", "", "", "", none⟩

/-- Model of `fetchBlog` in `EditBlog.tsx`, applied to the fetch outcome and the
current user. -/
def editFetchBlog (fetchRes : Except String BlogRow)
    (user : Option AuthUser) : EditBlogState :=
  match fetchRes with
  | .error e =>
    { editInitialState with
        errorMsg := if e = "" then "Failed to load blog" else e }
  | .ok b =>
    if (match user with
        | some u => b.author_id == u.id
        | none => false) then
      { editInitialState with
          title := b.title
          content := b.content
          imageUrl := b.image_url
          imagePath := b.image_path }
    else
      { editInitialState with
          errorMsg := "You don\x27t have permission to edit this blog"
          pendingNav := some "/" }

/-- The `onChange` handler of the title input (`setTitle`). -/
def editSetTitle (st : EditBlogState) (t : String) : EditBlogState :=
  { st with title := t }

/-- The `onChange` handler of the content textarea (`setContent`). -/
def editSetContent (st : EditBlogState) (c : String) : EditBlogState :=
  { st with content := c }

/-- Result of `EditBlog.handleSubmit`: the new component state and
whether the remote update request was issued. -/
structure EditSubmitResult where
  state : EditBlogState
  updateIssued : Bool
deriving DecidableEq, Repr

def editHandleSubmit (st : EditBlogState) (user : Option AuthUser)
    (updateRes : Except String Unit) : EditSubmitResult :=
  if jsTrim st.title = "" then
    ⟨{ st with errorMsg := "Please enter a title" }, false⟩
  else if jsTrim st.content = "" then
    ⟨{ st with errorMsg := "Please enter blog content" }, false⟩
  else
    match user with
    | none =>
      ⟨{ st with errorMsg := "You must be logged in to edit a blog" }, false⟩
    | some u =>
      if u.email = "" then
        ⟨{ st with
            errorMsg := "User email not found. Please check your account." },
          false⟩
      else
        match updateRes with
        | .error e =>
          ⟨{ st with
              errorMsg := if e = "" then "Failed to update blog" else e,
              successMsg := "" }, true⟩
        | .ok _ =>
          ⟨{ st with
              errorMsg := "",
              successMsg := "Blog updated successfully!",
              pendingNav := some "/" }, true⟩

/-! ## Deletes (`EditBlog.handleDelete` and `Comments.handleDelete`)

Both start with a blocking `window.confirm`; declining issues no remote
call.  `EditBlog.handleDelete` then removes the stored cover image (if
`imagePath` is set) **before** deleting the row; a storage error is only
logged (`console.error`) and swallowed.  `Comments.handleDelete` deletes
the comment row **first** and removes the attachment files from storage
afterwards, ignoring the storage result entirely. -/

/-- A remote call issued during a delete flow, in issue order. -/
inductive DelStep
  | storageRemove (bucket : String) (paths : List String)
  | rowDelete (table : String) (id : String)
deriving DecidableEq, Repr

/-- Model of `EditBlog.handleDelete`: returns the issued remote calls in order,
the surfaced error (if any) and the navigation target. -/
def editHandleDelete (confirmed : Bool) (blogId imagePath : String)
    (storageRes : Except String Unit) (rowRes : Except String Unit) :
    List DelStep × Option String × Option String :=
  if ¬ confirmed then ([], none, none)
  else
    -- the storage error from `storageRes` is logged and swallowed, so it
    -- never alters control flow
    let storageSteps :=
      if imagePath ≠ "" then [DelStep.storageRemove "blog-images" [imagePath]]
      else []
    match rowRes with
    | .error e =>
      (storageSteps ++ [DelStep.rowDelete "blogs" blogId],
        some ("Failed to delete blog: " ++ e), none)
    | .ok _ =>
      (storageSteps ++ [DelStep.rowDelete "blogs" blogId], none, some "/")

/-- JS `Array.prototype.slice(i)` on a list of path segments, including
the negative-index behaviour (count from the end). -/
def jsSliceFrom (l : List String) (i : Int) : List String :=
  if 0 ≤ i then l.drop i.toNat
  else l.drop (l.length - min l.length (-i).toNat)

/-- JS `Array.prototype.indexOf` (first exact match, `-1` if absent). -/
def jsIndexOf (l : List String) (s : String) : Int :=
  match l.findIdx? (fun x => x = s) with
  | some n => (n : Int)
  | none => -1

/-- The path extraction in `Comments.handleDelete`:
`url.split('/')` then `parts.slice(parts.indexOf('comment-files')).join('/')`. -/
def extractStoragePath (url : String) : String :=
  let parts := jsSplitOn url "/"
  String.intercalate "/" (jsSliceFrom parts (jsIndexOf parts "comment-files"))

/-- The `filePaths` computed by `Comments.handleDelete` from a comment's
attachments: urls filtered on containing `comment-files`, mapped through
the path extraction. -/
def commentFilePaths (attachments : List AttachmentRow) : List String :=
  ((attachments.map (fun a => a.file_url)).filter
    (fun u => jsIncludes u "comment-files")).map extractStoragePath

/-- Model of `Comments.handleDelete`: the issued remote calls in order and the
surfaced error (if any).  The row delete is issued first; only when it
succeeds and qualifying attachment paths exist is the storage removal
issued, its outcome ignored. -/
def commentHandleDelete (confirmed : Bool) (comment : CommentRow)
    (attachments : List AttachmentRow) (rowRes : Except String Unit) :
    List DelStep × Option String :=
  if ¬ confirmed then ([], none)
  else
    match rowRes with
    | .error e => ([DelStep.rowDelete "comments" comment.id], some e)
    | .ok _ =>
      if attachments.length > 0 ∧ (commentFilePaths attachments).length > 0 then
        ([DelStep.rowDelete "comments" comment.id,
          DelStep.storageRemove "comment-files" (commentFilePaths attachments)],
          none)
      else
        ([DelStep.rowDelete "comments" comment.id], none)

/-! ## File drops (`CommentFileUpload.onDrop` and `ImageUpload.onDrop`) -/

/-- The 10 MB per-file cap checked in `CommentFileUpload.onDrop`. -/
def maxCommentFileSize : Nat := 10 * 1024 * 1024

/-- The 5 MB cap checked in `ImageUpload.onDrop`. -/
def maxBlogImageSize : Nat := 5 * 1024 * 1024

/-- The `for (const file of acceptedFiles)` loop of
`CommentFileUpload.onDrop`: each file is size-checked **before** its
upload call; an oversized file throws, aborting the loop (files already
uploaded stay uploaded).  Returns the files for which an upload call was
issued, and either the successfully processed list or the thrown error. -/
def commentDropLoop : List FileMeta → List FileMeta × Except String (List FileMeta)
  | [] => ([], Except.ok [])
  | f :: rest =>
    if maxCommentFileSize < f.size then
      ([], Except.error ("\x22" ++ f.name ++ "\x22 exceeds 10MB limit"))
    else
      let r := commentDropLoop rest
      (f :: r.1, r.2.map (fun l => f :: l))

/-- Model of `CommentFileUpload.onDrop` at the staging level: on success the new
files are appended to the staged list and the parent callback receives
the combined list; on a thrown error the catch block fires and the
staged list is left untouched.  Returns (upload calls issued, staged
list afterwards, error message if any). -/
def commentOnDrop (staged : List FileMeta) (accepted : List FileMeta) :
    List FileMeta × List FileMeta × Option String :=
  match commentDropLoop accepted with
  | (calls, Except.ok news) => (calls, staged ++ news, none)
  | (calls, Except.error e) => (calls, staged, some e)

/-- Model of `ImageUpload.onDrop` validation of the single accepted file: a
non-image MIME type or a size above 5 MB is rejected with an error
before any upload call; otherwise the upload is issued with the file. -/
def imageDropCheck (f : FileMeta) : Except String FileMeta :=
  if ¬ (jsStartsWith f.mime "image/") then
    Except.error "Please upload an image file (JPEG, PNG, GIF, etc.)"
  else if maxBlogImageSize < f.size then
    Except.error "Image size must be less than 5MB"
  else
    Except.ok f

/-! ## Sample data used by the witness theorems -/

def sampleBlog1 : BlogRow := ⟨"b1", "t1", "x1", "alice", "a@e", "", "", 3⟩

def sampleBlog2 : BlogRow := ⟨"b2", "t2", "x2", "alice", "a@e", "", "", 7⟩

def sampleBlog3 : BlogRow := ⟨"b3", "t3", "x3", "bob", "b@e", "", "", 5⟩

def sampleDb : List BlogRow := [sampleBlog1, sampleBlog2, sampleBlog3]

def sampleComment : CommentRow := ⟨"c1", "b1", "alice", "a@e", "hi", 5⟩

/-- A lookup whose every secondary query fails (null data). -/
def failingLookup : String → Option (List AttachmentRow) := fun _ => none

def sampleUser : AuthUser := ⟨"alice", "a@e"⟩

def sampleFile : UploadedFile :=
  ⟨"https://h/storage/v1/object/public/comment-files/f.png",
    "comment-files/f.png", ⟨"f.png", 42, "image/png"⟩⟩

/-! ## Claim theorems -/

/-- Claim C1: for every page number `page ≥ 1` and page size `size ≥ 1`
the list fetcher computes the zero-based offset window
`[(page-1)*size, (page-1)*size + size - 1]` over the rows ordered by
creation time descending, so the returned row set has length at most
`size` and its `i`-th row is the ordered result set's row at offset
`(page-1)*size + i`. -/
theorem fetchBlogs_offset_window (page size : Nat) (hp : 1 ≤ page)
    (hs : 1 ≤ size) (db : List BlogRow) :
    (fetchBlogs page size db).length ≤ size ∧
    (∀ i, i < (fetchBlogs page size db).length →
      (fetchBlogs page size db)[i]? =
        (orderByDesc BlogRow.created_at db)[(page - 1) * size + i]?) ∧
    (orderByDesc BlogRow.created_at db).Sorted
      (fun a b => b.created_at ≤ a.created_at) := by
  refine ⟨?_, ?_, sorted_orderByDesc _ _⟩
  · unfold fetchBlogs rangeWindow
    simp only [List.length_take, List.length_drop]
    omega
  · intro i hi
    unfold fetchBlogs rangeWindow at *
    simp only [List.length_take, List.length_drop] at hi
    rw [List.getElem?_take_of_lt (by omega), List.getElem?_drop]

/-- Witness for C1 at `page = 2`, `size = 6` over a three-row table. -/
theorem fetchBlogs_offset_window_witness :
    1 ≤ 2 ∧ 1 ≤ 6 ∧
    ((fetchBlogs 2 6 sampleDb).length ≤ 6 ∧
     (∀ i, i < (fetchBlogs 2 6 sampleDb).length →
       (fetchBlogs 2 6 sampleDb)[i]? =
         (orderByDesc BlogRow.created_at sampleDb)[(2 - 1) * 6 + i]?) ∧
     (orderByDesc BlogRow.created_at sampleDb).Sorted
       (fun a b => b.created_at ≤ a.created_at)) :=
  ⟨by decide, by decide,
    fetchBlogs_offset_window 2 6 (by decide) (by decide) sampleDb⟩

/-- Helper: the real ceiling of `count / 6` agrees with the natural
ceiling-division formula. -/
theorem totalPagesOf_eq (count : Nat) :
    totalPagesOf count = (count + ITEMS_PER_PAGE - 1) / ITEMS_PER_PAGE := by
  unfold totalPagesOf ITEMS_PER_PAGE
  simp only [Nat.cast_ofNat]
  rcases Nat.eq_zero_or_pos count with h | h
  · subst h; norm_num
  · have h1 : (count : ℚ) ≤ (((count + 6 - 1) / 6 : ℕ) : ℚ) * 6 := by
      have : count ≤ ((count + 6 - 1) / 6) * 6 := by omega
      exact_mod_cast this
    have h2 : ((((count + 6 - 1) / 6 - 1 : ℕ)) : ℚ) * 6 < (count : ℚ) := by
      have : ((count + 6 - 1) / 6 - 1) * 6 < count := by omega
      exact_mod_cast this
    apply le_antisymm
    · rw [Nat.ceil_le, div_le_iff₀ (by norm_num : (0:ℚ) < 6)]
      exact h1
    · have := Nat.lt_ceil.mpr (by
        rw [lt_div_iff₀ (by norm_num : (0:ℚ) < 6)]
        exact h2)
      omega

/-- Claim C7: for every total row count `N` the reported total number of
pages equals the ceiling of `N / size` with the page size fixed at 6; in
particular for `N = 20` it reports 4 pages. -/
theorem totalPages_ceil (N : Nat) :
    ITEMS_PER_PAGE = 6 ∧
    totalPagesOf N = (N + ITEMS_PER_PAGE - 1) / ITEMS_PER_PAGE ∧
    totalPagesOf 20 = 4 := by
  refine ⟨rfl, totalPagesOf_eq N, ?_⟩
  rw [totalPagesOf_eq]
  rfl

/-- Claim C2: the attachment joiner performs, for every comment of the
fetched list, one secondary lookup keyed by that comment's identifier
and merges the returned rows onto the comment in the order the remote
returned them; a comment with zero attachment rows, and likewise a
comment whose secondary lookup failed, carries an empty attachment
sequence, and the join always yields one result per input comment (it
never fails as a whole). -/
theorem joinAttachments_keyed_total
    (lookup : String → Option (List AttachmentRow))
    (comments : List CommentRow) :
    (joinAttachments lookup comments).length = comments.length ∧
    (∀ i, (hi : i < comments.length) →
      (joinAttachments lookup comments)[i]? =
        some ⟨comments[i], (lookup comments[i].id).getD []⟩) ∧
    (∀ i, (hi : i < comments.length) → lookup comments[i].id = none →
      (joinAttachments lookup comments)[i]? = some ⟨comments[i], []⟩) ∧
    (∀ i, (hi : i < comments.length) → lookup comments[i].id = some [] →
      (joinAttachments lookup comments)[i]? = some ⟨comments[i], []⟩) := by
  refine ⟨List.length_map _ _, ?_, ?_, ?_⟩
  · intro i hi
    unfold joinAttachments
    rw [List.getElem?_map, List.getElem?_eq_getElem hi]
    rfl
  · intro i hi h
    unfold joinAttachments
    rw [List.getElem?_map, List.getElem?_eq_getElem hi]
    simp [h]
  · intro i hi h
    unfold joinAttachments
    rw [List.getElem?_map, List.getElem?_eq_getElem hi]
    simp [h]

/-- Witness for C2: a single comment whose secondary lookup fails gets
an empty attachment sequence and the join still returns one row. -/
theorem joinAttachments_keyed_total_witness :
    (joinAttachments failingLookup [sampleComment]).length = 1 ∧
    (joinAttachments failingLookup [sampleComment])[0]? =
      some ⟨sampleComment, []⟩ := by
  have h := joinAttachments_keyed_total failingLookup [sampleComment]
  exact ⟨h.1, h.2.2.1 0 (by decide) rfl⟩

/-- Claim C3: when posting a comment with staged files the attachment
insert is issued only after the comment insert succeeded; if the
attachment insert then fails, the created comment row stays in the
store with zero attachment rows and the error is surfaced; and when no
files are staged no attachment insert is issued at all. -/
theorem commentSubmit_two_phase_write (u : AuthUser)
    (blogId content : String) (files : List UploadedFile) (now : Nat)
    (commentRes : Except String String) (attachRes : Except String Unit)
    (hc : jsTrim content ≠ "") :
    ((commentHandleSubmit (some u) blogId content files now commentRes
        attachRes).attachmentInsertIssued = true →
      ∃ newId, commentRes = Except.ok newId) ∧
    (files = [] →
      (commentHandleSubmit (some u) blogId content files now commentRes
        attachRes).attachmentInsertIssued = false) ∧
    (∀ newId e, commentRes = Except.ok newId → attachRes = Except.error e →
      files ≠ [] →
      (commentHandleSubmit (some u) blogId content files now commentRes
          attachRes).insertedComment =
        some ⟨newId, blogId, u.id, u.email, jsTrim content, now⟩ ∧
      (commentHandleSubmit (some u) blogId content files now commentRes
          attachRes).attachmentRowsStored = [] ∧
      (commentHandleSubmit (some u) blogId content files now commentRes
          attachRes).errorMsg = some (postErrMsg e)) := by
  refine ⟨?_, ?_, ?_⟩
  · intro h
    cases commentRes with
    | error e => simp [commentHandleSubmit, hc] at h
    | ok newId => exact ⟨newId, rfl⟩
  · intro hf
    subst hf
    cases commentRes with
    | error e => simp [commentHandleSubmit, hc]
    | ok newId => simp [commentHandleSubmit, hc]
  · intro newId e hcr har hf
    subst hcr
    subst har
    have hl : 0 < files.length := List.length_pos.mpr hf
    simp [commentHandleSubmit, hc, hl]

/-- Witness for C3: a staged file, a successful comment insert and a
failing attachment insert leave the comment stored, zero attachment
rows stored and the error surfaced. -/
theorem commentSubmit_two_phase_write_witness :
    (jsTrim "hi" ≠ "") ∧
    ((commentHandleSubmit (some sampleUser) "b1" "hi" [sampleFile] 5
        (Except.ok "c9") (Except.error "boom")).insertedComment =
      some ⟨"c9", "b1", "alice", "a@e", jsTrim "hi", 5⟩ ∧
     (commentHandleSubmit (some sampleUser) "b1" "hi" [sampleFile] 5
        (Except.ok "c9") (Except.error "boom")).attachmentRowsStored = [] ∧
     (commentHandleSubmit (some sampleUser) "b1" "hi" [sampleFile] 5
        (Except.ok "c9") (Except.error "boom")).errorMsg =
       some (postErrMsg "boom")) := by
  have h := commentSubmit_two_phase_write sampleUser "b1" "hi" [sampleFile]
    5 (Except.ok "c9") (Except.error "boom") (by decide)
  exact ⟨by decide, h.2.2 "c9" "boom" rfl rfl (by decide)⟩

/-! ## Further sample data (deletes, edit, live refresh) -/

def c4Attachment : AttachmentRow :=
  ⟨"c1", "https://h/storage/v1/object/public/comment-files/f.png",
    "f.png", "image/png", 3⟩

def c4Comment : CommentRow := ⟨"c1", "b1", "alice", "a@e", "hello", 1⟩

def c5Blog : BlogRow := ⟨"b1", "T0", "C0", "alice", "a@e", "", "", 1⟩

def c5Bob : AuthUser := ⟨"bob", "b@e"⟩

def staleSnap : FetchSnapshot := ⟨[], fun _ => some []⟩

def freshSnap : FetchSnapshot :=
  ⟨[⟨"c2", "b", "u", "u@e", "new", 10⟩], fun _ => some []⟩

def stepIsStorageRemove : DelStep → Bool
  | DelStep.storageRemove _ _ => true
  | _ => false

def stepIsRowDelete : DelStep → Bool
  | DelStep.rowDelete _ _ => true
  | _ => false

/-- Index of the first step of a delete trace satisfying `p` (length of
the trace if none does). -/
def firstStepIdx (tr : List DelStep) (p : DelStep → Bool) : Nat :=
  tr.findIdx p

/-- Claim C4 counterexample: deleting a comment that owns a stored
attachment (after a confirmed prompt, with the row delete succeeding)
issues the row delete first and the storage removal after it — the
dependent stored file is not deleted before the row delete, refuting
the claim's ordering for the comment delete flow. -/
theorem commentDelete_row_before_storage_cex :
    (commentHandleDelete true c4Comment [c4Attachment] (Except.ok ())).1 =
      [DelStep.rowDelete "comments" "c1",
       DelStep.storageRemove "comment-files" ["comment-files/f.png"]] ∧
    ¬ (firstStepIdx
        (commentHandleDelete true c4Comment [c4Attachment] (Except.ok ())).1
        stepIsStorageRemove <
       firstStepIdx
        (commentHandleDelete true c4Comment [c4Attachment] (Except.ok ())).1
        stepIsRowDelete) := by
  decide

/-- Claim C4 (amended): every entity delete is gated by the blocking
confirmation prompt and a declined prompt issues no remote call; in the
blog-edit delete flow the stored cover image (if any) is removed
best-effort before the row delete and the storage outcome never
prevents (or reorders) the row delete; in the comment delete flow the
row delete is issued first, with the attachment storage removal issued
after it and its outcome ignored. -/
theorem delete_confirmation_best_effort (blogId imagePath : String)
    (storageRes rowRes : Except String Unit) (c : CommentRow)
    (atts : List AttachmentRow) (hip : imagePath ≠ "") :
    editHandleDelete false blogId imagePath storageRes rowRes =
      ([], none, none) ∧
    commentHandleDelete false c atts rowRes = ([], none) ∧
    (editHandleDelete true blogId imagePath storageRes rowRes).1 =
      [DelStep.storageRemove "blog-images" [imagePath],
       DelStep.rowDelete "blogs" blogId] ∧
    (commentHandleDelete true c atts rowRes).1.head? =
      some (DelStep.rowDelete "comments" c.id) := by
  refine ⟨rfl, rfl, ?_, ?_⟩
  · unfold editHandleDelete
    cases rowRes with
    | error e => simp [hip]
    | ok _ => simp [hip]
  · cases rowRes with
    | error e => rfl
    | ok _ =>
      show (if atts.length > 0 ∧ (commentFilePaths atts).length > 0 then
          ([DelStep.rowDelete "comments" c.id,
            DelStep.storageRemove "comment-files" (commentFilePaths atts)],
            (none : Option String))
        else ([DelStep.rowDelete "comments" c.id], none)).1.head? =
        some (DelStep.rowDelete "comments" c.id)
      by_cases h2 : atts.length > 0 ∧ (commentFilePaths atts).length > 0
      · rw [if_pos h2]
        rfl
      · rw [if_neg h2]
        rfl

/-- Witness for the amended C4 at a concrete image path, comment and
outcomes. -/
theorem delete_confirmation_best_effort_witness :
    ("p.png" ≠ "") ∧
    (editHandleDelete false "b1" "p.png" (Except.ok ()) (Except.ok ()) =
      ([], none, none) ∧
     commentHandleDelete false c4Comment [c4Attachment] (Except.ok ()) =
      ([], none) ∧
     (editHandleDelete true "b1" "p.png" (Except.ok ()) (Except.ok ())).1 =
      [DelStep.storageRemove "blog-images" ["p.png"],
       DelStep.rowDelete "blogs" "b1"] ∧
     (commentHandleDelete true c4Comment [c4Attachment] (Except.ok ())).1.head? =
      some (DelStep.rowDelete "comments" c4Comment.id)) :=
  ⟨by decide,
    delete_confirmation_best_effort "b1" "p.png" (Except.ok ())
      (Except.ok ()) c4Comment [c4Attachment] (by decide)⟩

/-- Claim C5 counterexample: a user whose identifier differs from the
loaded post's author identifier still causes an update request in the
edit path, by editing the (unpopulated) title and content fields after
the permission error and submitting — the submit handler performs no
ownership comparison. -/
theorem editSubmit_nonowner_update_cex :
    (editHandleSubmit
        (editSetContent
          (editSetTitle (editFetchBlog (Except.ok c5Blog) (some c5Bob)) "T1")
          "C1")
        (some c5Bob) (Except.ok ())).updateIssued = true ∧
    c5Bob.id ≠ c5Blog.author_id := by
  decide

/-- Claim C5 (amended): for every current user whose identifier differs
from the loaded post's author identifier, the load-time ownership
pre-check rejects with a permission error before any update request is
sent, leaves the form fields unpopulated and schedules navigation away,
so a submit from the state as loaded issues no update call; the submit
handler itself performs no ownership comparison, so an update can still
be issued for a non-owner who edits the form fields before the
redirect. -/
theorem edit_ownership_precheck (b : BlogRow) (user : Option AuthUser)
    (h : ∀ u, user = some u → u.id ≠ b.author_id) :
    (editFetchBlog (Except.ok b) user).errorMsg =
      "You don\x27t have permission to edit this blog" ∧
    (editFetchBlog (Except.ok b) user).title = "" ∧
    (editFetchBlog (Except.ok b) user).content = "" ∧
    (editFetchBlog (Except.ok b) user).pendingNav = some "/" ∧
    ∀ updateRes,
      (editHandleSubmit (editFetchBlog (Except.ok b) user) user
        updateRes).updateIssued = false := by
  cases user with
  | none =>
    exact ⟨rfl, rfl, rfl, rfl, fun _ => rfl⟩
  | some u =>
    have hne : (b.author_id == u.id) = false :=
      beq_eq_false_iff_ne.mpr (fun hh => h u rfl hh.symm)
    have hst : editFetchBlog (Except.ok b) (some u) =
        { editInitialState with
            errorMsg := "You don\x27t have permission to edit this blog"
            pendingNav := some "/" } := by
      simp only [editFetchBlog, hne, Bool.false_eq_true, if_false]
    rw [hst]
    exact ⟨rfl, rfl, rfl, rfl, fun _ => rfl⟩

/-- Witness for the amended C5: the non-owning user `c5Bob` on
`c5Blog`. -/
theorem edit_ownership_precheck_witness :
    (∀ u, some c5Bob = some u → u.id ≠ c5Blog.author_id) ∧
    ((editFetchBlog (Except.ok c5Blog) (some c5Bob)).errorMsg =
      "You don\x27t have permission to edit this blog" ∧
     (editFetchBlog (Except.ok c5Blog) (some c5Bob)).title = "" ∧
     (editFetchBlog (Except.ok c5Blog) (some c5Bob)).content = "" ∧
     (editFetchBlog (Except.ok c5Blog) (some c5Bob)).pendingNav = some "/" ∧
     ∀ updateRes,
       (editHandleSubmit (editFetchBlog (Except.ok c5Blog) (some c5Bob))
         (some c5Bob) updateRes).updateIssued = false) :=
  ⟨by intro u hu; cases hu; decide,
    edit_ownership_precheck c5Blog (some c5Bob)
      (by intro u hu; cases hu; decide)⟩

/-- Claim C6: neither create operation issues a remote insert when the
body text is empty after trimming or when no user is present; on a
successful create the inputs are cleared (title and content for a blog,
content and staged files for a comment), and for the blog create the
visible confirmation alert is displayed before the scheduled navigation
takes effect. -/
theorem create_validation_clear_confirm (user : Option AuthUser)
    (blogId title content imageUrl imagePath : String)
    (files : List UploadedFile) (now : Nat)
    (cRes : Except String String) (aRes : Except String Unit)
    (iRes : Except String Unit) :
    (user = none ∨ jsTrim content = "" →
      (commentHandleSubmit user blogId content files now cRes
        aRes).commentInsertIssued = false) ∧
    (user = none ∨ jsTrim content = "" →
      (createBlogHandleSubmit user title content imageUrl imagePath now
        iRes).insertIssued = false) ∧
    (∀ u, user = some u → jsTrim title ≠ "" → jsTrim content ≠ "" →
      u.email ≠ "" → iRes = Except.ok () →
      (createBlogHandleSubmit user title content imageUrl imagePath now
        iRes).titleAfter = "" ∧
      (createBlogHandleSubmit user title content imageUrl imagePath now
        iRes).contentAfter = "" ∧
      createRuntimeEvents
        (createBlogHandleSubmit user title content imageUrl imagePath now
          iRes) =
        [UiEvent.alertShown "Blog created successfully!",
         UiEvent.navigated "/"]) ∧
    (∀ u newId, user = some u → jsTrim content ≠ "" →
      cRes = Except.ok newId → (files = [] ∨ aRes = Except.ok ()) →
      (commentHandleSubmit user blogId content files now cRes
        aRes).contentAfter = "" ∧
      (commentHandleSubmit user blogId content files now cRes
        aRes).filesAfter = []) := by
  refine ⟨?_, ?_, ?_, ?_⟩
  · rintro (hu | hc)
    · subst hu; rfl
    · cases user with
      | none => rfl
      | some u => simp [commentHandleSubmit, hc]
  · rintro (hu | hc)
    · subst hu; rfl
    · cases user with
      | none => rfl
      | some u =>
        by_cases ht : jsTrim title = ""
        · simp [createBlogHandleSubmit, ht]
        · simp [createBlogHandleSubmit, ht, hc]
  · intro u hu ht hc he hi
    subst hu
    subst hi
    by_cases hmail : u.email = ""
    · exact absurd hmail he
    · refine ⟨?_, ?_, ?_⟩ <;>
        simp [createBlogHandleSubmit, ht, hc, hmail, createRuntimeEvents]
  · intro u newId hu hc hcr haf
    subst hu
    subst hcr
    rcases haf with hf | ha
    · subst hf
      constructor <;> simp [commentHandleSubmit, hc]
    · subst ha
      cases files with
      | nil => constructor <;> simp [commentHandleSubmit, hc]
      | cons f fs => constructor <;> simp [commentHandleSubmit, hc]

/-- Witness for C6: a logged-in user successfully creating a blog and a
comment, plus the no-user rejection. -/
theorem create_validation_clear_confirm_witness :
    ((some sampleUser : Option AuthUser) = some sampleUser) ∧
    (jsTrim "t" ≠ "") ∧ (jsTrim "c" ≠ "") ∧ (sampleUser.email ≠ "") ∧
    ((createBlogHandleSubmit (some sampleUser) "t" "c" "" "" 9
        (Except.ok ())).titleAfter = "" ∧
     (createBlogHandleSubmit (some sampleUser) "t" "c" "" "" 9
        (Except.ok ())).contentAfter = "" ∧
     createRuntimeEvents
        (createBlogHandleSubmit (some sampleUser) "t" "c" "" "" 9
          (Except.ok ())) =
        [UiEvent.alertShown "Blog created successfully!",
         UiEvent.navigated "/"]) ∧
    (commentHandleSubmit none "b1" "c" [] 9 (Except.ok "c9")
      (Except.ok ())).commentInsertIssued = false := by
  have h := create_validation_clear_confirm (some sampleUser) "b1" "t" "c"
    "" "" [] 9 (Except.ok "c9") (Except.ok ()) (Except.ok ())
  have h0 := create_validation_clear_confirm none "b1" "t" "c"
    "" "" [] 9 (Except.ok "c9") (Except.ok ()) (Except.ok ())
  exact ⟨rfl, by decide, by decide, by decide,
    h.2.2.1 sampleUser rfl (by decide) (by decide) (by decide) rfl,
    h0.1 (Or.inl rfl)⟩

/-- Claim C8 counterexample: two change notifications trigger two
unserialized re-fetches; the fetch that read the fresh store completes
first and the stale fetch completes last, so the final displayed state
is the stale snapshot's result, not the result of a full fresh fetch of
the final store state — refuting unconditional convergence. -/
theorem refetch_stale_last_cex :
    finalDisplayed "b" [] [freshSnap, staleSnap] ≠
      fetchCommentsPure "b" freshSnap := by
  decide

/-- Claim C8 (amended): each change notification triggers one
independent full re-fetch with no serialization between fetches, and
the final displayed state equals the full fetch result of whichever
fetch completes last; it therefore converges to the result of one full
fresh fetch exactly when the last-completing fetch read the final store
state, while a stale fetch completing last leaves the stale result
displayed. -/
theorem refetch_last_completion_wins (blogId : String)
    (init : List JoinedComment) (completions : List FetchSnapshot)
    (s : FetchSnapshot) (h : completions.getLast? = some s) :
    finalDisplayed blogId init completions = fetchCommentsPure blogId s ∧
    (∀ events : List Unit, refetchCount events = events.length) := by
  constructor
  · induction completions generalizing init with
    | nil => simp at h
    | cons a t ih =>
      cases t with
      | nil =>
        simp only [List.getLast?_singleton, Option.some.injEq] at h
        subst h
        rfl
      | cons b t2 =>
        rw [List.getLast?_cons_cons] at h
        exact ih (fetchCommentsPure blogId a) h
  · intro events
    simp [refetchCount]

/-- Witness for the amended C8: a two-fetch run whose last completion
read the fresh snapshot converges to the fresh fetch result. -/
theorem refetch_last_completion_wins_witness :
    ([staleSnap, freshSnap].getLast? = some freshSnap) ∧
    (finalDisplayed "b" [] [staleSnap, freshSnap] =
      fetchCommentsPure "b" freshSnap ∧
     (∀ events : List Unit, refetchCount events = events.length)) :=
  ⟨rfl, refetch_last_completion_wins "b" [] [staleSnap, freshSnap]
    freshSnap rfl⟩

/-- Claim C9: if posting a comment fails at the comment insert or at
the subsequent attachment insert, the typed comment text and the staged
file list are left unchanged; they are cleared exactly when every
issued write succeeded. -/
theorem commentSubmit_preserves_input_on_failure (u : AuthUser)
    (blogId content : String) (files : List UploadedFile) (now : Nat)
    (hc : jsTrim content ≠ "") :
    (∀ e aRes,
      (commentHandleSubmit (some u) blogId content files now
        (Except.error e) aRes).contentAfter = content ∧
      (commentHandleSubmit (some u) blogId content files now
        (Except.error e) aRes).filesAfter = files) ∧
    (∀ newId e, files ≠ [] →
      (commentHandleSubmit (some u) blogId content files now
        (Except.ok newId) (Except.error e)).contentAfter = content ∧
      (commentHandleSubmit (some u) blogId content files now
        (Except.ok newId) (Except.error e)).filesAfter = files) ∧
    (∀ newId aRes, (files = [] ∨ aRes = Except.ok ()) →
      (commentHandleSubmit (some u) blogId content files now
        (Except.ok newId) aRes).contentAfter = "" ∧
      (commentHandleSubmit (some u) blogId content files now
        (Except.ok newId) aRes).filesAfter = []) := by
  refine ⟨?_, ?_, ?_⟩
  · intro e aRes
    constructor <;> simp [commentHandleSubmit, hc]
  · intro newId e hf
    have hl : 0 < files.length := List.length_pos.mpr hf
    constructor <;> simp [commentHandleSubmit, hc, hl]
  · intro newId aRes haf
    rcases haf with hf | ha
    · subst hf
      constructor <;> simp [commentHandleSubmit, hc]
    · subst ha
      cases files with
      | nil => constructor <;> simp [commentHandleSubmit, hc]
      | cons f fs => constructor <;> simp [commentHandleSubmit, hc]

/-- Witness for C9: a failing comment insert leaves the typed text and
the staged file untouched. -/
theorem commentSubmit_preserves_input_on_failure_witness :
    (jsTrim "hi" ≠ "") ∧
    ((commentHandleSubmit (some sampleUser) "b1" "hi" [sampleFile] 5
        (Except.error "down") (Except.ok ())).contentAfter = "hi" ∧
     (commentHandleSubmit (some sampleUser) "b1" "hi" [sampleFile] 5
        (Except.error "down") (Except.ok ())).filesAfter = [sampleFile]) :=
  ⟨by decide,
    (commentSubmit_preserves_input_on_failure sampleUser "b1" "hi"
      [sampleFile] 5 (by decide)).1 "down" (Except.ok ())⟩

/-! ### File size limits (Claim C10) -/

/-- Helper: every file for which the drop loop issued an upload call
passed the size check. -/
theorem commentDropLoop_calls_sizes (accepted : List FileMeta) :
    ∀ f ∈ (commentDropLoop accepted).1, f.size ≤ maxCommentFileSize := by
  induction accepted with
  | nil => intro f hf; simp [commentDropLoop] at hf
  | cons g rest ih =>
    intro f hf
    by_cases hg : maxCommentFileSize < g.size
    · simp [commentDropLoop, hg] at hf
    · simp only [commentDropLoop, if_neg hg] at hf
      rcases List.mem_cons.mp hf with hfe | hfm
      · subst hfe; omega
      · exact ih f hfm

/-- Helper: a successfully completed drop loop returns only files that
passed the size check. -/
theorem commentDropLoop_ok_sizes (accepted : List FileMeta) :
    ∀ calls news, commentDropLoop accepted = (calls, Except.ok news) →
      ∀ f ∈ news, f.size ≤ maxCommentFileSize := by
  induction accepted with
  | nil =>
    intro calls news h f hf
    simp [commentDropLoop] at h
    rcases h with ⟨h1, h2⟩
    subst h2
    simp at hf
  | cons g rest ih =>
    intro calls news h f hf
    by_cases hg : maxCommentFileSize < g.size
    · simp [commentDropLoop, hg] at h
    · simp only [commentDropLoop, if_neg hg] at h
      rcases hrec : commentDropLoop rest with ⟨calls2, res2⟩
      rw [hrec] at h
      cases res2 with
      | error e => simp [Except.map] at h
      | ok news2 =>
        simp only [Except.map, Prod.mk.injEq, Except.ok.injEq] at h
        rcases h with ⟨h1, h2⟩
        subst h2
        rcases List.mem_cons.mp hf with hfe | hfm
        · subst hfe; omega
        · exact ih calls2 news2 hrec f hfm

/-- Helper: an oversized file anywhere in the accepted list makes the
drop loop abort with an error. -/
theorem commentDropLoop_oversized_error (accepted : List FileMeta) :
    ∀ f ∈ accepted, maxCommentFileSize < f.size →
      ∃ e, (commentDropLoop accepted).2 = Except.error e := by
  induction accepted with
  | nil => intro f hf; simp at hf
  | cons g rest ih =>
    intro f hf hover
    by_cases hg : maxCommentFileSize < g.size
    · exact ⟨"\x22" ++ g.name ++ "\x22 exceeds 10MB limit",
        by simp [commentDropLoop, hg]⟩
    · rcases List.mem_cons.mp hf with hfe | hfm
      · subst hfe; omega
      · rcases ih f hfm hover with ⟨e, he⟩
        refine ⟨e, ?_⟩
        simp only [commentDropLoop, if_neg hg]
        rcases hrec : commentDropLoop rest with ⟨calls2, res2⟩
        rw [hrec] at he
        simp only at he
        subst he
        rfl

/-- Claim C10: every file staged as a comment attachment has size at
most 10 MiB — an oversized file aborts the whole drop with an error and
is itself never uploaded — and every blog cover image accepted for
upload has an image MIME type and size at most 5 MiB, while oversized
or non-image cover files are rejected without any upload call. -/
theorem upload_size_limits (staged accepted : List FileMeta)
    (g : FileMeta)
    (hstaged : ∀ f ∈ staged, f.size ≤ maxCommentFileSize) :
    (∀ f ∈ (commentDropLoop accepted).1, f.size ≤ maxCommentFileSize) ∧
    (∀ f ∈ accepted, maxCommentFileSize < f.size →
      ∃ e, (commentDropLoop accepted).2 = Except.error e) ∧
    (∀ f, f ∈ (commentOnDrop staged accepted).2.1 →
      f.size ≤ maxCommentFileSize) ∧
    (∀ g2, imageDropCheck g = Except.ok g2 →
      jsStartsWith g.mime "image/" = true ∧ g.size ≤ maxBlogImageSize ∧
      g2 = g) ∧
    (jsStartsWith g.mime "image/" = false ∨ maxBlogImageSize < g.size →
      ∃ e, imageDropCheck g = Except.error e) := by
  refine ⟨commentDropLoop_calls_sizes accepted,
    commentDropLoop_oversized_error accepted, ?_, ?_, ?_⟩
  · intro f hf
    unfold commentOnDrop at hf
    rcases hrec : commentDropLoop accepted with ⟨calls, res⟩
    rw [hrec] at hf
    cases res with
    | error e =>
      simp only at hf
      exact hstaged f hf
    | ok news =>
      simp only at hf
      rcases List.mem_append.mp hf with hfs | hfn
      · exact hstaged f hfs
      · exact commentDropLoop_ok_sizes accepted calls news hrec f hfn
  · intro g2 hok
    unfold imageDropCheck at hok
    by_cases hm : jsStartsWith g.mime "image/" = true
    · by_cases hs : maxBlogImageSize < g.size
      · rw [if_neg (by simp [hm]), if_pos hs] at hok
        cases hok
      · rw [if_neg (by simp [hm]), if_neg hs] at hok
        cases hok
        exact ⟨hm, by omega, rfl⟩
    · rw [if_pos (by simpa using hm)] at hok
      cases hok
  · intro hbad
    unfold imageDropCheck
    rcases hbad with hm | hs
    · exact ⟨_, by rw [if_pos (by simp [hm])]⟩
    · by_cases hm : jsStartsWith g.mime "image/" = true
      · exact ⟨_, by rw [if_neg (by simp [hm]), if_pos hs]⟩
      · exact ⟨_, by rw [if_pos (by simpa using hm)]⟩

/-- Witness for C10: an empty staged list, a single small file accepted
for a comment, and a valid small cover image. -/
theorem upload_size_limits_witness :
    (∀ f ∈ ([] : List FileMeta), f.size ≤ maxCommentFileSize) ∧
    ((∀ f ∈ (commentDropLoop [⟨"a.png", 42, "image/png"⟩]).1,
        f.size ≤ maxCommentFileSize) ∧
     (∀ g2, imageDropCheck ⟨"a.png", 42, "image/png"⟩ = Except.ok g2 →
        jsStartsWith (FileMeta.mk "a.png" 42 "image/png").mime "image/" =
            true ∧
        (FileMeta.mk "a.png" 42 "image/png").size ≤ maxBlogImageSize ∧
        g2 = ⟨"a.png", 42, "image/png"⟩)) := by
  have h := upload_size_limits [] [⟨"a.png", 42, "image/png"⟩]
    ⟨"a.png", 42, "image/png"⟩ (by intro f hf; simp at hf)
  exact ⟨by intro f hf; simp at hf, h.1, h.2.2.2.1⟩

end BlogApp
